import Mathlib

/-!
A formal model of the ShiftBookTeleBot repository (main.py, db_setup.py):
calendar arithmetic mirroring Python datetime.date, the SQLite store, the
per chat session dictionaries and the message handlers, with theorems about
the quota evaluator, the availability query, allocation commit and
cancellation.
-/

namespace ShiftBook

/-!
### Calendar arithmetic (Python datetime.date, proleptic Gregorian)

A date is represented by its proleptic Gregorian ordinal, exactly as in
Python date.toordinal, with day 1 = 0001-01-01.  ISO YYYY-MM-DD strings
compare lexicographically in the same order as ordinals for four digit
years, so SQL comparisons on the shift_date TEXT column are modelled by
ordinal comparisons, and TEXT equality by ordinal equality.
-/

/-- Gregorian leap year test. -/
def isLeap (y : Nat) : Bool := y % 4 == 0 && (y % 100 != 0 || y % 400 == 0)

/-- Length of month m of year y. -/
def daysInMonth (y m : Nat) : Nat :=
  if m = 2 then (if isLeap y then 29 else 28)
  else if m = 4 ∨ m = 6 ∨ m = 9 ∨ m = 11 then 30
  else 31

/-- Days of year y strictly before month m. -/
def daysBeforeMonth (y m : Nat) : Nat :=
  (List.range (m - 1)).foldl (fun acc i => acc + daysInMonth y (i + 1)) 0

/-- Days strictly before January 1 of year y (year 1 based). -/
def daysBeforeYear (y : Nat) : Nat :=
  (y - 1) * 365 + (y - 1) / 4 - (y - 1) / 100 + (y - 1) / 400

/-- date(y, m, d).toordinal(). -/
def ymdToOrd (y m d : Nat) : Nat :=
  daysBeforeYear y + daysBeforeMonth y m + d

/-- Inverse of ymdToOrd on valid dates: the standard civil calendar
algorithm over 400 year eras, with years starting in March. -/
def ordToYmd (o : Nat) : Nat × Nat × Nat :=
  let z := o + 305
  let era := z / 146097
  let doe := z % 146097
  let yoe := (doe - doe / 1460 + doe / 36524 - doe / 146096) / 365
  let doy := doe - (365 * yoe + yoe / 4 - yoe / 100)
  let mp := (5 * doy + 2) / 153
  let d := doy - (153 * mp + 2) / 5 + 1
  let m := if mp < 10 then mp + 3 else mp - 9
  let y := yoe + era * 400 + (if m ≤ 2 then 1 else 0)
  (y, m, d)

/-- The year of a date. -/
def yearOf (o : Nat) : Nat := (ordToYmd o).1

/-- The month of a date. -/
def monthOf (o : Nat) : Nat := (ordToYmd o).2.1

/-- date.day. -/
def dayOf (o : Nat) : Nat := (ordToYmd o).2.2

/-- date.weekday(): Monday = 0 through Sunday = 6. -/
def weekday (o : Nat) : Nat := (o + 6) % 7

/-- A date plus a timedelta of k days. -/
def addDays (o : Nat) (k : Int) : Nat := ((o : Int) + k).toNat

/-- (a - b).days for two dates. -/
def dateSub (a b : Nat) : Int := (a : Int) - (b : Int)

/-- date.replace with a new day of month. -/
def replaceDay (o : Nat) (n : Nat) : Nat := ymdToOrd (yearOf o) (monthOf o) n

/-!
### The SQLite store (db_setup.py and the queries of main.py)
-/

/-- A row of the students table. -/
structure Student where
  student_id : String
  name : String
  is_restricted : Nat
deriving DecidableEq

/-- A row of the bookings table.  The student_id TEXT column is nullable:
main.py inserts the session value, which can be missing. -/
structure Booking where
  id : Nat
  student_id : Option String
  shift_date : Nat
  shift_type : String
  booked_at : String
deriving DecidableEq

/-- The database: both tables plus the autoincrement counter. -/
structure Store where
  students : List Student
  bookings : List Booking
  nextId : Nat
deriving DecidableEq

/-- SQL equality on a nullable TEXT column: NULL never compares equal. -/
def sqlEq : Option String → Option String → Bool
  | some a, some b => a == b
  | _, _ => false

/-- SELECT * FROM students WHERE student_id = ? AND name = ?, first row. -/
def validate_student (db : Store) (student_id name : String) : Option Student :=
  db.students.find? (fun st => st.student_id == student_id && st.name == name)

/-- SELECT COUNT(*) FROM bookings WHERE student_id = ? AND shift_date
BETWEEN ? AND ?.  BETWEEN on ISO strings is chronological. -/
def countBookingsBetween (db : Store) (sid : Option String) (lo hi : Nat) : Nat :=
  (db.bookings.filter (fun b =>
    sqlEq b.student_id sid && decide (lo ≤ b.shift_date) && decide (b.shift_date ≤ hi))).length

/-- SELECT shift_type FROM bookings WHERE shift_date = ?. -/
def takenSlots (db : Store) (d : Nat) : List String :=
  (db.bookings.filter (fun b => b.shift_date == d)).map (fun b => b.shift_type)

/-- INSERT INTO bookings (student_id, shift_date, shift_type, booked_at)
VALUES (?, ?, ?, ?): appends a fresh row, no uniqueness constraint. -/
def insertBooking (db : Store) (sid : Option String) (d : Nat) (slot ts : String) : Store :=
  { db with bookings := db.bookings ++ [⟨db.nextId, sid, d, slot, ts⟩],
            nextId := db.nextId + 1 }

/-- DELETE FROM bookings WHERE student_id = ? AND shift_date >= ?, yielding
the new store and cursor.rowcount. -/
def deleteFutureBookings (db : Store) (sid : Option String) (today : Nat) : Store × Nat :=
  ({ db with bookings := db.bookings.filter (fun b =>
      !(sqlEq b.student_id sid && decide (today ≤ b.shift_date))) },
   (db.bookings.filter (fun b =>
      sqlEq b.student_id sid && decide (today ≤ b.shift_date))).length)

/-!
### The quota evaluator: both source definitions of check_shift_limits
-/

/-- The Python exceptions the modelled handlers can raise. -/
inductive PyErr
  | attributeError
  | typeError
  | programmingError
deriving DecidableEq

/-- get_weekly_booking_count, main.py lines 108 to 117. -/
def get_weekly_booking_count (db : Store) (sid : Option String) (shift_date : Nat) : Nat :=
  let start_of_week := addDays shift_date (-(weekday shift_date : Int))
  let end_of_week := addDays start_of_week 6
  countBookingsBetween db sid start_of_week end_of_week

/-- get_monthly_booking_count, main.py lines 120 to 130. -/
def get_monthly_booking_count (db : Store) (sid : Option String) (shift_date : Nat) : Nat :=
  let month_start := replaceDay shift_date 1
  let next_month := replaceDay (addDays month_start 32) 1
  let month_end := addDays next_month (-1)
  countBookingsBetween db sid month_start month_end

/-- The first definition of check_shift_limits, main.py lines 133 to 143.
At import time it is shadowed by the second definition below, which is the
one every call site reaches. -/
def check_shift_limits_first (db : Store) (today : Nat) (sid : Option String)
    (shift_date : Nat) : Bool :=
  let five_day_limit := addDays today 5
  if shift_date ≤ five_day_limit then true
  else
    decide (get_weekly_booking_count db sid shift_date < 4) &&
      decide (get_monthly_booking_count db sid shift_date < 10)

/-- The second, effective definition of check_shift_limits, main.py lines
334 to 363.  Past the exemption window the month end computation applies
.date() to a datetime.date value, and datetime.date has no attribute date,
so the call raises AttributeError instead of returning a decision. -/
def check_shift_limits (db : Store) (today : Nat) (sid : Option String)
    (shift_date : Nat) : Except PyErr Bool :=
  let within_5_days := decide (dateSub shift_date today ≤ 5)
  if within_5_days then Except.ok true
  else
    let start_of_week := addDays shift_date (-(weekday shift_date : Int))
    let end_of_week := addDays start_of_week 6
    let weekly_count := countBookingsBetween db sid start_of_week end_of_week
    let month_start := replaceDay shift_date 1
    let next_month := addDays (replaceDay shift_date 28) 4
    let month_end_base := addDays next_month (-(dayOf next_month : Int))
    Except.error PyErr.attributeError

/-!
### Concrete fixtures: the sample roster of db_setup.py and small stores
-/

/-- The sample roster inserted by db_setup.py. -/
def roster : List Student :=
  [⟨"7654321", "CONG", 0⟩, ⟨"1234567", "YING", 1⟩,
   ⟨"2401236", "MUHAMMED IRFAN BIN SHAFARUDIN", 1⟩,
   ⟨"2401554", "RYAN TAN YONG SOON", 1⟩,
   ⟨"2402043", "VIC GERSUN MONTANO PAMPLONA", 1⟩,
   ⟨"2402492", "JESSICA CHOY ING CHOY", 1⟩]

/-- A sample current date, Monday 2026-10-12. -/
def t0 : Nat := ymdToOrd 2026 10 12

/-- The roster with no bookings yet. -/
def emptyStore : Store := ⟨roster, [], 1⟩

/-- A store in which identity 7654321 already holds four bookings in the
ISO week Monday 2026-10-19 to Sunday 2026-10-25, the week containing the
candidate date t0 + 8 = 2026-10-20. -/
def dbFourWeek : Store :=
  ⟨roster,
   [⟨1, some "7654321", t0 + 7, "morning", "2026-10-01 09:00:00"⟩,
    ⟨2, some "7654321", t0 + 8, "afternoon1", "2026-10-01 09:00:00"⟩,
    ⟨3, some "7654321", t0 + 9, "morning", "2026-10-01 09:00:00"⟩,
    ⟨4, some "7654321", t0 + 10, "morning", "2026-10-01 09:00:00"⟩],
   5⟩

/-!
### Claims about the quota evaluator: C1, C3, C4
-/

/-- C1: with 4 existing bookings in the week of the candidate date and the
date 8 days out, the effective quota evaluator does not return the denied
decision the specification demands: it raises AttributeError.  The
shadowed first definition would have returned the specified denial. -/
theorem C1_quota_evaluator_raises_past_window :
    get_weekly_booking_count dbFourWeek (some "7654321") (t0 + 8) = 4
      ∧ check_shift_limits dbFourWeek t0 (some "7654321") (t0 + 8)
          = Except.error PyErr.attributeError
      ∧ check_shift_limits_first dbFourWeek t0 (some "7654321") (t0 + 8) = false :=
  ⟨rfl, rfl, rfl⟩

/-- C1, general form: for every store and identity, any candidate date more
than 5 days after today makes the effective quota evaluator raise. -/
theorem quota_evaluator_always_raises_past_window (db : Store) (today : Nat)
    (sid : Option String) (d : Nat) (h : ¬ dateSub d today ≤ 5) :
    check_shift_limits db today sid d = Except.error PyErr.attributeError := by
  simp [check_shift_limits, h]

/-- C3: inside the exemption window, dates at most 5 days after today, the
effective quota evaluator permits regardless of the store contents. -/
theorem C3_exemption_window_permits (db : Store) (today : Nat) (sid : Option String)
    (d : Nat) (h : dateSub d today ≤ 5) :
    check_shift_limits db today sid d = Except.ok true := by
  simp [check_shift_limits, h]

/-- C3 witness: a date 3 days out is permitted even with four bookings that
week. -/
theorem C3_exemption_window_permits_witness :
    dateSub (t0 + 3) t0 ≤ 5
      ∧ check_shift_limits dbFourWeek t0 (some "7654321") (t0 + 3) = Except.ok true :=
  ⟨by decide, C3_exemption_window_permits dbFourWeek t0 (some "7654321") (t0 + 3) (by decide)⟩

/-- C4 counterexample: 8 days out on an empty store the first definition
returns permitted while the effective second definition raises, so the two
definitions of check_shift_limits are not equivalent. -/
theorem C4_definitions_disagree :
    check_shift_limits emptyStore t0 (some "7654321") (t0 + 8)
        = Except.error PyErr.attributeError
      ∧ check_shift_limits_first emptyStore t0 (some "7654321") (t0 + 8) = true :=
  ⟨rfl, rfl⟩

/-- C4 amended: the two definitions agree exactly on the exemption window.
The second definition returns the decision of the first precisely when the
candidate date is at most 5 days after today, in which case both permit;
past the window the second raises instead of deciding. -/
theorem C4_agreement_iff_within_window (db : Store) (today : Nat) (sid : Option String)
    (d : Nat) :
    check_shift_limits db today sid d = Except.ok (check_shift_limits_first db today sid d)
      ↔ dateSub d today ≤ 5 := by
  constructor
  · intro h
    by_contra hgt
    simp [check_shift_limits, hgt] at h
  · intro h
    have h1 : d ≤ addDays today 5 := by
      simp only [addDays, dateSub] at *
      omega
    simp [check_shift_limits, check_shift_limits_first, h, h1]

/-!
### Sessions and the conversational handlers
-/

/-- A pending selection, an element of the session pending_bookings list. -/
structure PendingB where
  date : Nat
  shift : String
deriving DecidableEq

/-- One entry of the user_sessions dictionary.  Each field is an optional
value because the Python dict acquires its keys one handler at a time. -/
structure Session where
  student_id : Option String := none
  name : Option String := none
  is_restricted : Option Bool := none
  pending_bookings : Option (List PendingB) := none
  current_date : Option Nat := none
  available_shifts : Option (List String) := none
deriving DecidableEq

/-- The fresh session a defaultdict produces. -/
def emptySession : Session := {}

/-- The distinct messages the modelled handlers send back to the chat. -/
inductive Reply
  | invalidDate
  | noAvailability
  | shiftsOffered (shifts : List String)
  | backToDate
  | proceedToConfirm
  | invalidShift
  | oneShiftPerDay
  | limitReached
  | saved (shift : String) (d : Nat)
  | noPending
  | booked
  | pendingCleared
  | invalidOption
  | notLoggedIn
  | cancelledFuture
  | noFutureBookings
  | loginSuccess
  | loginFailed
deriving DecidableEq

/-- handle_student_id, main.py lines 157 to 163: stores the message text,
which the source strips of surrounding whitespace, as the session student
id, before any roster check.  The text parameter stands for the already
stripped message. -/
def handle_student_id (s : Session) (text : String) : Session :=
  { s with student_id := some text }

/-- validate_user, main.py lines 165 to 184: the roster check; on success
it records the name, the restriction flag and an empty pending list.  The
name parameter stands for the already stripped message text. -/
def validate_user (db : Store) (s : Session) (student_id name : String) : Session × Reply :=
  match validate_student db student_id name with
  | some student =>
      ({ s with name := some name,
                is_restricted := some (student.is_restricted != 0),
                pending_bookings := some [] }, Reply.loginSuccess)
  | none => (s, Reply.loginFailed)

/-- The slot catalog built by handle_date_selection before removing taken
slots: night slots are appended only when the session restriction flag is
not truthy, that is missing or false. -/
def dateSelectionShifts (is_restricted : Option Bool) : List String :=
  let all_shifts := ["morning", "afternoon1", "afternoon2", "afternoon3"]
  if is_restricted.getD false then all_shifts
  else all_shifts ++ ["night1", "night2"]

/-- The offered set: the catalog for this session minus taken slots. -/
def availableShiftsCalc (is_restricted : Option Bool) (taken : List String) : List String :=
  (dateSelectionShifts is_restricted).filter (fun sh => !(taken.contains sh))

/-- handle_date_selection, main.py lines 190 to 237, at the store level;
the date is already parsed and the connection bookkeeping is modelled
separately below.  The current_date key is set before the query; on an
empty offered set the handler returns without touching available_shifts. -/
def handle_date_selection_core (db : Store) (s : Session) (shift_date : Nat) :
    Session × Reply :=
  let s := { s with current_date := some shift_date }
  let taken := takenSlots db shift_date
  let available_shifts := availableShiftsCalc s.is_restricted taken
  if available_shifts.isEmpty then (s, Reply.noAvailability)
  else ({ s with available_shifts := some available_shifts },
        Reply.shiftsOffered available_shifts)

/-- The back to date menu entry, lowercased as the handler compares it. -/
def backToDateText : String := "🔙 back to date"

/-- The proceed to confirm menu entry, lowercased. -/
def proceedText : String := "✅ proceed to confirm"

/-- handle_shift_selection, main.py lines 239 to 276: the menu branches,
the availability membership check, the one shift per day rule for
restricted sessions, the quota check, and the append to the pending list.
The text parameter stands for the message already stripped and lowercased
by the source.  A missing current_date reaches the quota call and raises
TypeError there; a date past the exemption window propagates the
AttributeError of check_shift_limits.  An exception leaves the session as
it was. -/
def handle_shift_selection (today : Nat) (db : Store) (s : Session) (text : String) :
    Except PyErr (Session × Reply) :=
  if text == backToDateText then Except.ok (s, Reply.backToDate)
  else if text == proceedText then Except.ok (s, Reply.proceedToConfirm)
  else
    let shift_type := text
    let shift_date := s.current_date
    if !((s.available_shifts.getD []).contains shift_type) then
      Except.ok (s, Reply.invalidShift)
    else if s.is_restricted.getD false &&
        !((s.pending_bookings.getD []).filter (fun b => some b.date == shift_date)).isEmpty then
      Except.ok (s, Reply.oneShiftPerDay)
    else
      match shift_date with
      | none => Except.error PyErr.typeError
      | some d =>
        match check_shift_limits db today s.student_id d with
        | Except.error e => Except.error e
        | Except.ok false => Except.ok (s, Reply.limitReached)
        | Except.ok true =>
            let newPending := (s.pending_bookings.getD []) ++ [⟨d, shift_type⟩]
            Except.ok ({ s with pending_bookings := some newPending },
              Reply.saved shift_type d)

/-- The second, effective definition of handle_confirmation, main.py lines
436 to 478.  Yields the updated store, the session (none when the handler
pops it after a successful commit) and the reply.  Confirm All inserts
every pending row unconditionally, with one shared timestamp.  The
user_input parameter stands for the already stripped message text. -/
def handle_confirmation (db : Store) (now_str : String) (s : Session) (user_input : String) :
    Store × Option Session × Reply :=
  let student_id := s.student_id
  let bookings := s.pending_bookings.getD []
  if user_input == "Confirm All" then
    if bookings.isEmpty then (db, some s, Reply.noPending)
    else
      (bookings.foldl (fun acc b => insertBooking acc student_id b.date b.shift now_str) db,
       none, Reply.booked)
  else if user_input == "Cancel All" then
    (db, some { s with pending_bookings := some [] }, Reply.pendingCleared)
  else (db, some s, Reply.invalidOption)

/-- handle_cancel, main.py lines 382 to 407: Python truthiness of the
stored student id gates the deletion, so an unset or empty id is treated as
not logged in; no roster check is consulted.  Yields the store,
cursor.rowcount and the reply. -/
def handle_cancel (db : Store) (today : Nat) (s : Session) : Store × Nat × Reply :=
  match s.student_id with
  | none => (db, 0, Reply.notLoggedIn)
  | some sid =>
    if sid == "" then (db, 0, Reply.notLoggedIn)
    else
      let res := deleteFutureBookings db (some sid) today
      if res.2 ≠ 0 then (res.1, res.2, Reply.cancelledFuture)
      else (res.1, res.2, Reply.noFutureBookings)

/-!
### The thread local connection cache (get_db) and the availability query
-/

/-- A SQLite connection object: only its open or closed state matters. -/
structure Conn where
  closed : Bool
deriving DecidableEq

/-- The thread local storage: the conn attribute, once set, survives
conn.close(), because get_db only tests for the attribute presence. -/
structure ThreadState where
  conn : Option Conn
deriving DecidableEq

/-- A thread that has not called get_db yet. -/
def freshThread : ThreadState := ⟨none⟩

/-- get_db, main.py lines 48 to 53: reuses the cached connection even when
it has already been closed. -/
def get_db (ts : ThreadState) : Conn × ThreadState :=
  match ts.conn with
  | some c => (c, ts)
  | none => (⟨false⟩, ⟨some ⟨false⟩⟩)

/-- handle_date_selection with the connection bookkeeping: the text parse
comes first, then get_db; conn.cursor() and execute on a closed connection
raise sqlite3.ProgrammingError; after the query the handler closes the
shared connection but leaves it cached in thread local storage. -/
def handle_date_selection_io (ts : ThreadState) (db : Store) (s : Session)
    (parsed : Option Nat) : Except PyErr (ThreadState × Session × Reply) :=
  match parsed with
  | none => Except.ok (ts, s, Reply.invalidDate)
  | some shift_date =>
    let s := { s with current_date := some shift_date }
    let pair := get_db ts
    if pair.1.closed then Except.error PyErr.programmingError
    else
      let taken := takenSlots db shift_date
      let ts2 : ThreadState := ⟨some ⟨true⟩⟩
      let available_shifts := availableShiftsCalc s.is_restricted taken
      if available_shifts.isEmpty then Except.ok (ts2, s, Reply.noAvailability)
      else Except.ok (ts2, { s with available_shifts := some available_shifts },
                      Reply.shiftsOffered available_shifts)

/-!
### Availability claims: C6 and C8
-/

/-- C6: a session whose roster record is restricted is never offered a
night slot by the availability query, on any date and store. -/
theorem C6_restricted_never_offered_night (db : Store) (s : Session) (d : Nat)
    (shifts : List String) (hr : s.is_restricted = some true)
    (ho : (handle_date_selection_core db s d).2 = Reply.shiftsOffered shifts) :
    ¬ "night1" ∈ shifts ∧ ¬ "night2" ∈ shifts := by
  have hsub : shifts = availableShiftsCalc (some true) (takenSlots db d) := by
    simp only [handle_date_selection_core, hr] at ho
    split at ho <;> simp_all
  subst hsub
  refine ⟨fun h => ?_, fun h => ?_⟩ <;>
    simp [availableShiftsCalc, dateSelectionShifts, List.mem_filter] at h

/-- A restricted session with no other keys set, used as a witness. -/
def sRestricted : Session := { emptySession with is_restricted := some true }

/-- C6 witness: on an empty store a restricted session is offered exactly
the four day slots, and night1 is not among them. -/
theorem C6_restricted_never_offered_night_witness :
    sRestricted.is_restricted = some true
      ∧ (handle_date_selection_core emptyStore sRestricted (t0 + 1)).2
          = Reply.shiftsOffered ["morning", "afternoon1", "afternoon2", "afternoon3"]
      ∧ ¬ "night1" ∈ ["morning", "afternoon1", "afternoon2", "afternoon3"] :=
  ⟨rfl, rfl,
   (C6_restricted_never_offered_night emptyStore sRestricted (t0 + 1)
      ["morning", "afternoon1", "afternoon2", "afternoon3"] rfl rfl).1⟩

/-- C8 counterexample: with a night slot already booked and a restricted
viewer, the union of offered and booked slots contains night1, which the
restricted catalog does not, so the claimed equality fails. -/
theorem C8_union_exceeds_catalog :
    ("night1" ∈ availableShiftsCalc (some true) ["night1"] ∨ "night1" ∈ ["night1"])
      ∧ ¬ "night1" ∈ dateSelectionShifts (some true) := by
  constructor
  · right; simp
  · intro h; simp [dateSelectionShifts] at h

/-- C8 amended: no slot is silently dropped, and the union of offered and
booked slots equals the catalog restricted by the restriction rule exactly
when every booked slot lies inside that restricted catalog; a booked night
slot seen by a restricted viewer makes the union strictly larger. -/
theorem C8_union_catalog_conditional (restr : Option Bool) (taken : List String)
    (hsub : ∀ y ∈ taken, y ∈ dateSelectionShifts restr) (x : String) :
    (x ∈ availableShiftsCalc restr taken ∨ x ∈ taken) ↔ x ∈ dateSelectionShifts restr := by
  constructor
  · rintro (hx | hx)
    · exact (List.mem_filter.mp hx).1
    · exact hsub x hx
  · intro hx
    by_cases ht : x ∈ taken
    · exact Or.inr ht
    · refine Or.inl (List.mem_filter.mpr ⟨hx, ?_⟩)
      simp [ht]

/-- C8 witness: for a restricted viewer with morning taken, afternoon1 is
in the union exactly as it is in the restricted catalog. -/
theorem C8_union_catalog_conditional_witness :
    (∀ y ∈ (["morning"] : List String), y ∈ dateSelectionShifts (some true))
      ∧ (("afternoon1" ∈ availableShiftsCalc (some true) ["morning"]
            ∨ "afternoon1" ∈ (["morning"] : List String))
          ↔ "afternoon1" ∈ dateSelectionShifts (some true)) :=
  ⟨by decide, C8_union_catalog_conditional (some true) ["morning"] (by decide) "afternoon1"⟩

/-!
### Cancellation claims: C5 and C10
-/

/-- C5: a session that has only submitted a student id, so the roster check
never succeeded and no name is recorded, can still run the cancel handler,
and the deletion of that ids future bookings executes. -/
theorem C5_cancel_enabled_unauthenticated (db : Store) (today : Nat) (sid : String)
    (hne : sid ≠ "") :
    (handle_student_id emptySession sid).name = none
      ∧ (∀ b ∈ db.bookings, b.student_id = some sid → today ≤ b.shift_date →
          ¬ b ∈ (handle_cancel db today (handle_student_id emptySession sid)).1.bookings) := by
  refine ⟨rfl, fun b hb hbid hbd hmem => ?_⟩
  have hbeq : (sid == "") = false := by simp [hne]
  have h1 : (handle_cancel db today (handle_student_id emptySession sid)).1.bookings
      = db.bookings.filter
          (fun b => !(sqlEq b.student_id (some sid) && decide (today ≤ b.shift_date))) := by
    simp only [handle_cancel, handle_student_id, emptySession, hbeq, deleteFutureBookings,
      Bool.false_eq_true, if_false]
    split <;> rfl
  rw [h1] at hmem
  rcases List.mem_filter.mp hmem with ⟨-, hkeep⟩
  simp [sqlEq, hbid, hbd] at hkeep

/-- A store holding one future booking of identity 7654321. -/
def dbOneFuture : Store := ⟨roster, [⟨1, some "7654321", t0 + 1, "morning", "x"⟩], 2⟩

/-- C5 witness: the future booking is gone after a cancel issued by a
session that never passed the roster check. -/
theorem C5_cancel_enabled_unauthenticated_witness :
    ¬ (⟨1, some "7654321", t0 + 1, "morning", "x"⟩ : Booking)
        ∈ (handle_cancel dbOneFuture t0 (handle_student_id emptySession "7654321")).1.bookings :=
  (C5_cancel_enabled_unauthenticated dbOneFuture t0 "7654321" (by decide)).2
    ⟨1, some "7654321", t0 + 1, "morning", "x"⟩ (by decide) rfl (by decide)

/-- SQL equality against a non NULL parameter is plain equality. -/
theorem sqlEq_some_iff (x : Option String) (sid : String) :
    sqlEq x (some sid) = true ↔ x = some sid := by
  cases x <;> simp [sqlEq]

/-- A store holding two future bookings of identity 7654321. -/
def dbTwoFuture : Store :=
  ⟨roster, [⟨1, some "7654321", t0 + 1, "morning", "x"⟩,
            ⟨2, some "7654321", t0 + 2, "night1", "x"⟩], 3⟩

/-- C10 counterexample: removing one future booking and removing two
produce the same reply to the identity, so the count removed is not
returned to the identity, only whether it was zero. -/
theorem C10_count_not_reported :
    (handle_cancel dbOneFuture t0 (handle_student_id emptySession "7654321")).2.1 = 1
      ∧ (handle_cancel dbTwoFuture t0 (handle_student_id emptySession "7654321")).2.1 = 2
      ∧ (handle_cancel dbOneFuture t0 (handle_student_id emptySession "7654321")).2.2
          = (handle_cancel dbTwoFuture t0 (handle_student_id emptySession "7654321")).2.2 :=
  ⟨rfl, rfl, rfl⟩

/-- C10 amended: cancellation deletes exactly the identity bookings dated
today or later, leaves every other booking and the roster unchanged,
computes the removed count as cursor.rowcount, and reports to the identity
only whether that count was nonzero. -/
theorem C10_cancel_deletes_exactly (db : Store) (today : Nat) (s : Session) (sid : String)
    (hs : s.student_id = some sid) (hne : sid ≠ "") :
    (∀ b, b ∈ (handle_cancel db today s).1.bookings ↔
        b ∈ db.bookings ∧ ¬ (b.student_id = some sid ∧ today ≤ b.shift_date))
      ∧ (handle_cancel db today s).1.students = db.students
      ∧ (handle_cancel db today s).2.1
          = (db.bookings.filter
              (fun b => sqlEq b.student_id (some sid) && decide (today ≤ b.shift_date))).length
      ∧ ((handle_cancel db today s).2.1 ≠ 0 →
            (handle_cancel db today s).2.2 = Reply.cancelledFuture)
      ∧ ((handle_cancel db today s).2.1 = 0 →
            (handle_cancel db today s).2.2 = Reply.noFutureBookings) := by
  have hbeq : (sid == "") = false := by simp [hne]
  have hres : (handle_cancel db today s).1 = (deleteFutureBookings db (some sid) today).1
      ∧ (handle_cancel db today s).2.1 = (deleteFutureBookings db (some sid) today).2 := by
    simp only [handle_cancel, hs, hbeq, Bool.false_eq_true, if_false]
    split <;> exact ⟨rfl, rfl⟩
  refine ⟨fun b => ?_, ?_, ?_, ?_, ?_⟩
  · rw [hres.1]
    simp only [deleteFutureBookings, List.mem_filter]
    constructor
    · rintro ⟨hb, hp⟩
      refine ⟨hb, fun ⟨h1, h2⟩ => ?_⟩
      rw [Bool.not_eq_true', Bool.and_eq_false_iff] at hp
      rcases hp with hp | hp
      · rw [Bool.eq_false_iff] at hp
        exact hp ((sqlEq_some_iff _ _).mpr h1)
      · simp [h2] at hp
    · rintro ⟨hb, hp⟩
      refine ⟨hb, ?_⟩
      rw [Bool.not_eq_true', Bool.and_eq_false_iff]
      by_cases h1 : b.student_id = some sid
      · right
        by_cases h2 : today ≤ b.shift_date
        · exact absurd ⟨h1, h2⟩ hp
        · simp [h2]
      · left
        rw [Bool.eq_false_iff]
        intro hc
        exact h1 ((sqlEq_some_iff _ _).mp hc)
  · rw [hres.1]; rfl
  · exact hres.2
  · intro hnz
    rw [hres.2] at hnz
    simp only [handle_cancel, hs, hbeq, Bool.false_eq_true, if_false]
    rw [if_pos hnz]
  · intro hz
    rw [hres.2] at hz
    simp only [handle_cancel, hs, hbeq, Bool.false_eq_true, if_false]
    rw [if_neg (fun hc => hc hz)]

/-- C10 amended witness: the roster table survives a concrete cancel. -/
theorem C10_cancel_deletes_exactly_witness :
    (handle_cancel dbOneFuture t0 (handle_student_id emptySession "7654321")).1.students
      = roster :=
  (C10_cancel_deletes_exactly dbOneFuture t0 (handle_student_id emptySession "7654321")
    "7654321" rfl (by decide)).2.1

/-!
### Session operations and the allocation commit claims: C2 and C7
-/

/-- One step of the conversational flow, as it acts on a single session. -/
inductive SessionOp
  | start
  | studentId (text : String)
  | userCheck (db : Store) (student_id name : String)
  | dateSel (db : Store) (d : Nat)
  | shiftSel (today : Nat) (db : Store) (text : String)
  | confirm (db : Store) (now_str text : String)
  | cancelOp (db : Store) (today : Nat)

/-- The session component of each handler.  A popped session reappears as
the defaultdict empty session; a handler aborted by an exception leaves the
session map unchanged, the source mutating it only after all checks; the
cancel handler never writes the session. -/
def applyOp (op : SessionOp) (s : Session) : Session :=
  match op with
  | SessionOp.start => emptySession
  | SessionOp.studentId t => handle_student_id s t
  | SessionOp.userCheck db sid t => (validate_user db s sid t).1
  | SessionOp.dateSel db d => (handle_date_selection_core db s d).1
  | SessionOp.shiftSel today db t =>
      match handle_shift_selection today db s t with
      | Except.ok (s2, _) => s2
      | Except.error _ => s
  | SessionOp.confirm db now t => ((handle_confirmation db now s t).2.1).getD emptySession
  | SessionOp.cancelOp _ _ => s

/-- SELECT COUNT(*) of bookings holding a given (date, slot) pair. -/
def countSlot (db : Store) (d : Nat) (slot : String) : Nat :=
  (db.bookings.filter (fun b => b.shift_date == d && b.shift_type == slot)).length

/-- The claimed store invariant: no two rows share (date, slot). -/
def noDupSlot (db : Store) : Prop :=
  db.bookings.Pairwise (fun a b => ¬ (a.shift_date = b.shift_date ∧ a.shift_type = b.shift_type))

/-- Identity 7654321 logs in, views 2026-10-14 against the empty store and
selects morning. -/
def sessA : Session :=
  applyOp (SessionOp.shiftSel t0 emptyStore "morning")
    (applyOp (SessionOp.dateSel emptyStore (t0 + 2))
      (applyOp (SessionOp.userCheck emptyStore "7654321" "CONG")
        (applyOp (SessionOp.studentId "7654321") emptySession)))

/-- Identity 1234567 concurrently views the same date against the same
empty store, before the other commit lands, and also selects morning. -/
def sessB : Session :=
  applyOp (SessionOp.shiftSel t0 emptyStore "morning")
    (applyOp (SessionOp.dateSel emptyStore (t0 + 2))
      (applyOp (SessionOp.userCheck emptyStore "1234567" "YING")
        (applyOp (SessionOp.studentId "1234567") emptySession)))

/-- The store after the first identity commits. -/
def dbRace1 : Store := (handle_confirmation emptyStore "2026-10-12 09:00:00" sessA "Confirm All").1

/-- The store after the second identity commits onto the first. -/
def dbRace2 : Store := (handle_confirmation dbRace1 "2026-10-12 09:00:01" sessB "Confirm All").1

/-- C2 counterexample: a reachable pair of commits leaves two rows sharing
(date, slot); the second insert is neither rejected nor ignored. -/
theorem C2_duplicate_slot_reachable :
    ¬ noDupSlot dbRace2 ∧ countSlot dbRace2 (t0 + 2) "morning" = 2 := by
  refine ⟨fun h => ?_, rfl⟩
  unfold noDupSlot at h
  revert h
  decide

/-- Inserting one row raises the (date, slot) count by one when it matches
and leaves it unchanged otherwise. -/
theorem countSlot_insertBooking (db : Store) (sid : Option String) (d0 : Nat)
    (slot0 ts : String) (d : Nat) (slot : String) :
    countSlot (insertBooking db sid d0 slot0 ts) d slot
      = countSlot db d slot + (if d0 == d && slot0 == slot then 1 else 0) := by
  simp only [countSlot, insertBooking, List.filter_append, List.length_append]
  congr 1
  simp only [List.filter_cons, List.filter_nil]
  split <;> simp

/-- Folding the commit loop over a pending list adds exactly the matching
occurrences to each (date, slot) count. -/
theorem countSlot_foldl (sid : Option String) (ts : String) (d : Nat) (slot : String) :
    ∀ (l : List PendingB) (db : Store),
      countSlot (l.foldl (fun acc b => insertBooking acc sid b.date b.shift ts) db) d slot
        = countSlot db d slot + (l.filter (fun b => b.date == d && b.shift == slot)).length := by
  intro l
  induction l with
  | nil => intro db; simp
  | cons b lt ih =>
    intro db
    rw [List.foldl_cons, ih, countSlot_insertBooking, List.filter_cons]
    split
    · simp
      omega
    · simp

/-- C2 amended: the store enforces no (date, slot) uniqueness.  Confirm All
inserts every pending row unconditionally, so the count of rows holding a
(date, slot) grows by exactly the matching pending entries even when the
pair is already taken; duplicates are avoided only by the availability
filter at selection time. -/
theorem C2_commit_appends_unconditionally (db : Store) (now_str : String) (s : Session)
    (l : List PendingB) (hp : s.pending_bookings = some l) (hne : l ≠ [])
    (d : Nat) (slot : String) :
    countSlot (handle_confirmation db now_str s "Confirm All").1 d slot
      = countSlot db d slot
        + (l.filter (fun b => b.date == d && b.shift == slot)).length := by
  have hie : l.isEmpty = false := List.isEmpty_eq_false.mpr hne
  simp only [handle_confirmation, hp, Option.getD_some, hie, beq_self_eq_true, if_true,
    Bool.false_eq_true, if_false]
  exact countSlot_foldl s.student_id now_str d slot l db

/-- C2 amended witness: the second commit for the taken (date, morning)
pair raises its row count from one to two. -/
theorem C2_commit_appends_unconditionally_witness :
    countSlot dbRace2 (t0 + 2) "morning" = countSlot dbRace1 (t0 + 2) "morning" + 1 :=
  C2_commit_appends_unconditionally dbRace1 "2026-10-12 09:00:01" sessB
    [⟨t0 + 2, "morning"⟩] rfl (by decide) (t0 + 2) "morning"

/-- At most one pending selection per date. -/
def atMostOnePerDate (l : List PendingB) : Prop :=
  l.Pairwise (fun a b => a.date ≠ b.date)

/-- The restricted session invariant of C7: a session whose restriction
flag is set holds at most one pending selection per date. -/
def restrictedInv (s : Session) : Prop :=
  s.is_restricted = some true → atMostOnePerDate (s.pending_bookings.getD [])

/-- Every non raising outcome of the shift selection handler preserves the
restricted invariant: the append branch is guarded by the one shift per day
check, and every other branch leaves the session unchanged. -/
theorem shiftSel_preserves_inv (today : Nat) (db : Store) (s : Session) (t : String)
    (hinv : restrictedInv s) (s2 : Session) (r : Reply)
    (h : handle_shift_selection today db s t = Except.ok (s2, r)) : restrictedInv s2 := by
  simp only [handle_shift_selection] at h
  split at h
  · cases h; exact hinv
  · split at h
    · cases h; exact hinv
    · split at h
      · cases h; exact hinv
      · split at h
        · cases h; exact hinv
        · rename_i hnotdup
          split at h
          · cases h
          · rename_i d hd
            split at h
            · cases h
            · cases h; exact hinv
            · cases h
              intro hr
              simp only [Session.pending_bookings, Option.getD_some]
              rw [atMostOnePerDate, List.pairwise_append]
              refine ⟨hinv hr, List.pairwise_singleton _ _, ?_⟩
              intro a ha x hx
              simp only [List.mem_singleton] at hx
              subst hx
              simp only []
              have hr2 : s.is_restricted = some true := hr
              have hfil : ((s.pending_bookings.getD []).filter
                  (fun b => some b.date == s.current_date)).isEmpty = true := by
                by_contra hc
                apply hnotdup
                rw [hr2]
                simp [Bool.eq_false_iff.mpr hc]
              rw [List.isEmpty_iff] at hfil
              have := List.filter_eq_nil_iff.mp hfil a ha
              intro had
              apply this
              rw [hd, had]
              simp

/-- C7: for a restricted session, a second slot selection on a date already
in the pending list is rejected, with the session unchanged and no
exception, hence before the quota check, which for such a date would either
deny or raise; and every session operation of the flow preserves the at
most one pending selection per date invariant of restricted sessions. -/
theorem C7_restricted_one_pending_per_date :
    (∀ today db s t d, s.is_restricted = some true → s.current_date = some d →
        (∃ b ∈ s.pending_bookings.getD [], b.date = d) →
        (t == backToDateText) = false → (t == proceedText) = false →
        (s.available_shifts.getD []).contains t = true →
        handle_shift_selection today db s t = Except.ok (s, Reply.oneShiftPerDay))
      ∧ (∀ op s, restrictedInv s → restrictedInv (applyOp op s)) := by
  constructor
  · rintro today db s t d hr hcd ⟨b, hbm, hbd⟩ hb1 hb2 hav
    have hfil : ((s.pending_bookings.getD []).filter
        (fun x => some x.date == s.current_date)).isEmpty = false := by
      rw [List.isEmpty_eq_false]
      intro hnil
      have hmem : b ∈ (s.pending_bookings.getD []).filter
          (fun x => some x.date == s.current_date) :=
        List.mem_filter.mpr ⟨hbm, by rw [hcd, hbd]; simp⟩
      rw [hnil] at hmem
      simp at hmem
    simp only [handle_shift_selection, hb1, hb2, hav, Bool.not_true, Bool.false_eq_true,
      if_false, hr, Option.getD_some, hfil, Bool.not_false, Bool.and_self, if_true]
  · intro op s hinv
    cases op with
    | start => exact fun _ => List.Pairwise.nil
    | studentId t => exact fun h => hinv h
    | userCheck db sid t =>
        cases hv : validate_student db sid t with
        | none => simpa [applyOp, validate_user, hv] using hinv
        | some st =>
            intro h
            simp [applyOp, validate_user, hv, atMostOnePerDate]
    | dateSel db d =>
        simp only [applyOp, handle_date_selection_core]
        split <;> exact fun h => hinv h
    | shiftSel today db t =>
        simp only [applyOp]
        split
        · rename_i s2 r heq
          exact shiftSel_preserves_inv today db s t hinv s2 r heq
        · exact hinv
    | confirm db now t =>
        simp only [applyOp, handle_confirmation]
        split
        · split
          · exact hinv
          · exact fun _ => List.Pairwise.nil
        · split
          · exact fun _ => List.Pairwise.nil
          · exact hinv
    | cancelOp db today => exact hinv

/-- A restricted session that already holds a morning selection for the
date it is viewing, with afternoon1 still offered. -/
def sDup : Session :=
  { sRestricted with
      current_date := some (t0 + 2),
      pending_bookings := some [⟨t0 + 2, "morning"⟩],
      available_shifts := some ["afternoon1"] }

/-- C7 witness: the second selection on the same date is rejected with the
one shift per day reply and the session kept as it was. -/
theorem C7_restricted_one_pending_per_date_witness :
    handle_shift_selection t0 emptyStore sDup "afternoon1"
      = Except.ok (sDup, Reply.oneShiftPerDay) :=
  (C7_restricted_one_pending_per_date).1 t0 emptyStore sDup "afternoon1" (t0 + 2) rfl rfl
    ⟨⟨t0 + 2, "morning"⟩, by decide, rfl⟩ (by decide) (by decide) (by decide)

/-!
### The repeated availability query: C9
-/

/-- C9: the first availability query on a fresh thread succeeds but closes
the connection it leaves cached in thread local storage, so repeating the
query with no intervening commit raises sqlite3.ProgrammingError instead of
returning the same offered set. -/
theorem C9_second_availability_query_raises (db : Store) (s : Session) (d : Nat) :
    (∃ out, handle_date_selection_io freshThread db s (some d) = Except.ok out)
      ∧ (∀ ts1 s1 r1,
          handle_date_selection_io freshThread db s (some d) = Except.ok (ts1, s1, r1) →
          handle_date_selection_io ts1 db s1 (some d) = Except.error PyErr.programmingError) := by
  constructor
  · by_cases he : (availableShiftsCalc s.is_restricted (takenSlots db d)).isEmpty = true
    · refine ⟨(⟨some ⟨true⟩⟩, { s with current_date := some d }, Reply.noAvailability), ?_⟩
      simp [handle_date_selection_io, freshThread, get_db, he]
    · refine ⟨(⟨some ⟨true⟩⟩,
        { s with
            current_date := some d,
            available_shifts := some (availableShiftsCalc s.is_restricted (takenSlots db d)) },
        Reply.shiftsOffered (availableShiftsCalc s.is_restricted (takenSlots db d))), ?_⟩
      simp [handle_date_selection_io, freshThread, get_db, he]
  · intro ts1 s1 r1 h
    have hts : ts1 = ⟨some ⟨true⟩⟩ := by
      simp [handle_date_selection_io, freshThread, get_db] at h
      split at h <;> (cases h; rfl)
    subst hts
    simp [handle_date_selection_io, get_db]

/-- The six slots offered to an unrestricted fresh session. -/
def allSlotsOffered : List String :=
  ["morning", "afternoon1", "afternoon2", "afternoon3", "night1", "night2"]

/-- The session state after the first availability query of the witness. -/
def sAfterFirst : Session :=
  { emptySession with current_date := some t0, available_shifts := some allSlotsOffered }

/-- C9 witness: the concrete second query on the same thread raises. -/
theorem C9_second_availability_query_raises_witness :
    handle_date_selection_io ⟨some ⟨true⟩⟩ emptyStore sAfterFirst (some t0)
      = Except.error PyErr.programmingError :=
  (C9_second_availability_query_raises emptyStore emptySession t0).2
    ⟨some ⟨true⟩⟩ sAfterFirst (Reply.shiftsOffered allSlotsOffered) rfl

end ShiftBook
